import Mathlib

/-
Shallow embedding of src/jQuery-star-rating.js.

The widget's DOM-observable state is modelled explicitly:
  * each rendered star (an li inside the ul the plugin builds) carries a
    Boolean selected mark (the CSS class "selected");
  * this.count is an Option Int (null or the recorded number);
  * the ul's "disable" class is a Boolean flag.
Pre-existing content of the container element is modelled as a list of
opaque child nodes that contain no li elements (the selectors the plugin
uses, li and li:nth-of-type, then see only the plugin's own stars).
Hover classes are not modelled: no claim mentions them and they do not
interact with the selected marks or with this.count.
-/

namespace StarRating

/-- $.fn.starRating.defaults.starCount -/
def defaults : Nat := 5

/-- The per-instance state of Plugin: the selected marks of the rendered
stars (index 0 is star 1), this.count, and whether the ul has the
"disable" class. -/
structure Widget where
  stars : List Bool
  count : Option Int
  disabled : Bool
deriving DecidableEq

/-- Plugin constructor followed by _init/_build: this.count = null, and
starCount stars are rendered, none of them selected, ul not disabled. -/
def Widget.init (starCount : Nat) : Widget :=
  { stars := List.replicate starCount false, count := none, disabled := false }

/-- Plugin.prototype.get: returns this.count. -/
def Widget.get (w : Widget) : Option Int :=
  w.count

/-- Plugin.prototype._setStarCount: $lastStar = find("li:nth-of-type(count)").
When count is within [1, starCount] this selects the count-th star, and
prevAll+addClass / nextAll+removeClass leave star i selected iff i < count
(0-based); otherwise the selector matches nothing and every class
operation is a no-op.  this.count = count in both cases. -/
def Widget.setStarCount (w : Widget) (n : Int) : Widget :=
  { w with
    stars :=
      if 1 ≤ n ∧ n ≤ (w.stars.length : Int) then
        (List.range w.stars.length).map (fun (i : Nat) => decide ((i : Int) < n))
      else w.stars,
    count := some n }

/-- Plugin.prototype._resetStarCount: removeClass("selected") on every li,
this.count = null. -/
def Widget.resetStarCount (w : Widget) : Widget :=
  { w with stars := w.stars.map (fun _ => false), count := none }

/-- Plugin.prototype._disableStarCount: addClass("disable") on the ul. -/
def Widget.disableStarCount (w : Widget) : Widget :=
  { w with disabled := true }

/-- Plugin.prototype._enableStarCount: removeClass("disable") on the ul. -/
def Widget.enableStarCount (w : Widget) : Widget :=
  { w with disabled := false }

/-- The delegated click handler bound in _build, fired on the li at
0-based index i: prevAll+this get class "selected", nextAll lose it, and
this.count = (index among the wrapper's li elements) + 1.  The handler is
bound once per loop iteration, so one click runs it starCount times; each
run is idempotent and they do not interfere, so one run gives the
cumulative effect (clickStar_idem below).  The handler never consults the
"disable" class: _disableStarCount only toggles a class on the ul. -/
def Widget.clickStar (w : Widget) (i : Nat) : Widget :=
  if i < w.stars.length then
    { w with
      stars := (List.range w.stars.length).map (fun j => decide (j ≤ i)),
      count := some ((i : Int) + 1) }
  else w

/-- A child node of the container element: either pre-existing content
(opaque, li-free) or the ul of stars the plugin builds. -/
inductive Node where
  | content : Nat → Node
  | starList : List Bool → Node
deriving DecidableEq

/-- The container element: its pre-existing children and the plugin data
attached by $.data (none before initialization). -/
structure Elem where
  pre : List Nat
  widget : Option Widget
deriving DecidableEq

/-- The container's child list.  _build appends the ul to the element, so
the ul comes after any pre-existing content. -/
def Elem.children (e : Elem) : List Node :=
  e.pre.map Node.content ++
    (match e.widget with
     | some w => [Node.starList w.stars]
     | none => [])

/-- The first branch of $.fn.starRating (options undefined or an object):
if the element already has plugin data, nothing happens; otherwise a new
Plugin is constructed (which builds and appends the stars) and stored.
optCount is options.starCount; $.extend falls back to defaults when it is
absent. -/
def starRatingCreate (e : Elem) (optCount : Option Nat) : Elem :=
  match e.widget with
  | some _ => e
  | none => { e with widget := some (Widget.init (optCount.getD defaults)) }

def strSet : String := "set"
def strGet : String := "get"
def strReset : String := "reset"
def strDisable : String := "disable"
def strEnable : String := "enable"
def strDestroy : String := "destroy"
def strInit : String := "init"
def strBuild : String := "_build"

/-- $.fn.starRating.getters -/
def getters : List String := [strGet]

/-- The names of the non-underscore methods on Plugin.prototype; for these
and only these, typeof instance[name] === "function" holds once the
underscore filter has already been passed. -/
def publicMethods : List String :=
  [strDestroy, strSet, strReset, strGet, strDisable, strEnable]

/-- The observable outcome of one $.fn.starRating(cmd, args...) call on
one element: the element afterwards, the value returned when the getter
branch ran, whether a TypeError was thrown, and which instance method (if
any) was invoked. -/
structure DispatchOut where
  elem : Elem
  value : Option (Option Int)
  threw : Bool
  invoked : Option String
deriving DecidableEq

/-- Outcome when the dispatch does nothing to the element. -/
def noDispatch (e : Elem) : DispatchOut :=
  { elem := e, value := none, threw := false, invoked := none }

/-- Effect of instance[cmd].apply(instance, args) for a dispatchable
(public) method.  destroy: off, removeData, html("") — bindings and data
gone, the container emptied.  set: _setStarCount with the first argument
(dispatching set without an argument is outside the modelled behavior:
the source would then throw a selector error inside jQuery).  get invoked
in the chained branch returns a value that is discarded and changes
nothing. -/
def applyMethod (e : Elem) (w : Widget) (cmd : String) (args : List Int) : Elem :=
  if cmd = strDestroy then { pre := [], widget := none }
  else if cmd = strSet then { e with widget := some (w.setStarCount (args.headD 0)) }
  else if cmd = strReset then { e with widget := some w.resetStarCount }
  else if cmd = strDisable then { e with widget := some w.disableStarCount }
  else if cmd = strEnable then { e with widget := some w.enableStarCount }
  else e

/-- The string-command branch of $.fn.starRating.  The guard
options[0] !== "_" && options !== "init" filters private names.  With no
extra arguments and cmd among the getters, the instance is read directly
and instance[cmd] is applied — a TypeError when no instance exists.
Otherwise each element with an instance of Plugin whose cmd names a
function gets the method invoked; elements without an instance are
silently skipped. -/
def starRatingCmd (e : Elem) (cmd : String) (args : List Int) : DispatchOut :=
  if String.front cmd = '_' ∨ cmd = strInit then
    noDispatch e
  else if args.length = 0 ∧ cmd ∈ getters then
    match e.widget with
    | none => { elem := e, value := none, threw := true, invoked := none }
    | some w => { elem := e, value := some w.get, threw := false, invoked := some cmd }
  else
    match e.widget with
    | none => noDispatch e
    | some w =>
      if cmd ∈ publicMethods then
        { elem := applyMethod e w cmd args, value := none, threw := false,
          invoked := some cmd }
      else noDispatch e

/-- An operation on the container, as issued through the public surface:
the constructor branch or one of the interactive and command paths the
claims quantify over. -/
inductive Op where
  | create : Nat → Op
  | set : Int → Op
  | reset : Op
  | click : Nat → Op
  | disable : Op
  | enable : Op
deriving DecidableEq

/-- One operation applied to the container.  Commands on an element
without an instance are silent no-ops (the dispatch guard), a click event
needs a rendered star to land on, and a second create is ignored. -/
def Elem.step (e : Elem) : Op → Elem
  | .create n => starRatingCreate e (some n)
  | .set n =>
    match e.widget with
    | some w => { e with widget := some (w.setStarCount n) }
    | none => e
  | .reset =>
    match e.widget with
    | some w => { e with widget := some w.resetStarCount }
    | none => e
  | .click i =>
    match e.widget with
    | some w => { e with widget := some (w.clickStar i) }
    | none => e
  | .disable =>
    match e.widget with
    | some w => { e with widget := some w.disableStarCount }
    | none => e
  | .enable =>
    match e.widget with
    | some w => { e with widget := some w.enableStarCount }
    | none => e

/-- A whole sequence of operations applied in order. -/
def Elem.run (e : Elem) (ops : List Op) : Elem :=
  ops.foldl Elem.step e

/-- The spec's widget invariant, decidably: the selected marks are
exactly the prefix 1..count (empty when count is unset), and count is
unset or within [1, starCount]. -/
def Widget.invB (w : Widget) : Bool :=
  decide (w.stars =
      (List.range w.stars.length).map (fun (i : Nat) => decide ((i : Int) < w.count.getD 0)))
    && w.count.all (fun n => decide (1 ≤ n) && decide (n ≤ (w.stars.length : Int)))

/-- The invariant lifted to the container: whatever instance is attached
satisfies Widget.invB. -/
def Elem.inv (e : Elem) : Prop :=
  ∀ w, e.widget = some w → Widget.invB w = true

/-- Side condition on one operation: a set issued on an initialized
widget passes an argument within [1, starCount].  All other operations
are unrestricted. -/
def Op.ok (e : Elem) : Op → Bool
  | .set n =>
    match e.widget with
    | some w => decide (1 ≤ n) && decide (n ≤ (w.stars.length : Int))
    | none => true
  | _ => true

/-- Side condition threaded through a sequence of operations. -/
def opsOk : Elem → List Op → Bool
  | _, [] => true
  | e, op :: rest => Op.ok e op && opsOk (e.step op) rest

/- Helper lemmas. -/

theorem map_eq_replicate_false {α : Type} (l : List α) (f : α → Bool)
    (hf : ∀ a, f a = false) : l.map f = List.replicate l.length false := by
  induction l with
  | nil => rfl
  | cons a t ih => simp [hf, ih, List.replicate_succ]

theorem click_marks (L i : Nat) :
    (List.range L).map (fun j => decide (j ≤ i)) =
      (List.range L).map (fun (j : Nat) => decide ((j : Int) < (i : Int) + 1)) := by
  apply List.map_congr_left
  intro a _
  rw [decide_eq_decide]
  omega

/-- One click of the delegated handler is idempotent, so the starCount
repeated bindings of the handler in _build have the same cumulative
effect as a single run. -/
theorem clickStar_idem (w : Widget) (i : Nat) :
    (w.clickStar i).clickStar i = w.clickStar i := by
  unfold Widget.clickStar
  by_cases hi : i < w.stars.length
  · simp [hi]
  · simp [hi]

theorem invB_init (n : Nat) : (Widget.init n).invB = true := by
  unfold Widget.invB Widget.init
  simp only [Option.all, Bool.and_true, decide_eq_true_eq, List.length_replicate,
    Option.getD_none]
  rw [map_eq_replicate_false (List.range n) _ (fun a => by simp [Int.natCast_nonneg])]
  simp

theorem invB_set (w : Widget) (n : Int) (h1 : 1 ≤ n)
    (h2 : n ≤ (w.stars.length : Int)) : (w.setStarCount n).invB = true := by
  unfold Widget.invB Widget.setStarCount
  rw [if_pos ⟨h1, h2⟩]
  simp [h1, h2]

theorem invB_click (w : Widget) (i : Nat) (hw : w.invB = true) :
    (w.clickStar i).invB = true := by
  unfold Widget.clickStar
  by_cases hi : i < w.stars.length
  · rw [if_pos hi]
    unfold Widget.invB
    simp only [Option.all, Bool.and_eq_true, decide_eq_true_eq, List.length_map,
      List.length_range, Option.getD_some]
    refine ⟨?_, ?_, ?_⟩
    · exact click_marks w.stars.length i
    · omega
    · omega
  · rw [if_neg hi]; exact hw

theorem invB_reset (w : Widget) : w.resetStarCount.invB = true := by
  unfold Widget.invB Widget.resetStarCount
  simp only [Option.all, Bool.and_true, decide_eq_true_eq, List.length_map,
    Option.getD_none]
  rw [map_eq_replicate_false w.stars _ (fun a => rfl),
    map_eq_replicate_false (List.range w.stars.length) _
      (fun a => by simp [Int.natCast_nonneg])]
  simp

theorem invB_disable (w : Widget) (hw : w.invB = true) :
    w.disableStarCount.invB = true := by
  cases w
  exact hw

theorem invB_enable (w : Widget) (hw : w.invB = true) :
    w.enableStarCount.invB = true := by
  cases w
  exact hw

theorem inv_step (e : Elem) (op : Op) (he : Elem.inv e)
    (hok : Op.ok e op = true) : Elem.inv (e.step op) := by
  obtain ⟨p, ow⟩ := e
  cases ow with
  | none =>
    cases op with
    | create n =>
      intro w hw
      simp only [Elem.step, starRatingCreate] at hw
      cases hw
      exact invB_init _
    | set n => exact he
    | reset => exact he
    | click i => exact he
    | disable => exact he
    | enable => exact he
  | some w =>
    have hw : Widget.invB w = true := he w rfl
    cases op with
    | create n => exact he
    | set n =>
      intro w' hw'
      cases hw'
      simp only [Op.ok, Bool.and_eq_true, decide_eq_true_eq] at hok
      exact invB_set w n hok.1 hok.2
    | reset =>
      intro w' hw'
      cases hw'
      exact invB_reset w
    | click i =>
      intro w' hw'
      cases hw'
      exact invB_click w i hw
    | disable =>
      intro w' hw'
      cases hw'
      exact invB_disable w hw
    | enable =>
      intro w' hw'
      cases hw'
      exact invB_enable w hw

theorem inv_run (ops : List Op) (e : Elem) (he : Elem.inv e)
    (hok : opsOk e ops = true) : Elem.inv (e.run ops) := by
  induction ops generalizing e with
  | nil => exact he
  | cons op rest ih =>
    unfold opsOk at hok
    rw [Bool.and_eq_true] at hok
    exact ih (e.step op) (inv_step e op he hok.1) hok.2

theorem cmd_none_noop (p : List Nat) (args : List Int) (cmd : String)
    (h1 : ¬(String.front cmd = '_' ∨ cmd = strInit)) (h2 : cmd ∉ getters) :
    starRatingCmd { pre := p, widget := none } cmd args =
      noDispatch { pre := p, widget := none } := by
  unfold starRatingCmd
  rw [if_neg h1, if_neg (fun hc => absurd hc.2 h2)]

/- Claim theorems. -/

/-- C1 counterexample: on a fresh 3-star widget, after disable() and no
enable(), a click event on star 1 changes get() (from none to some 1):
the click handler is not detached or gated by the disable class. -/
theorem c1_cex :
    ((Widget.init 3).disableStarCount.clickStar 0).get ≠
      (Widget.init 3).disableStarCount.get := by
  decide

/-- C1 (amended): disable() only adds the disable class and leaves the
click handlers attached, so a click while disabled has exactly the effect
a click has while enabled (the class aside); and on an enabled widget,
disable() followed by enable() restores the widget exactly, so
pre-disable click behavior is restored. -/
theorem c1_thm (w : Widget) (i : Nat) (h : w.disabled = false) :
    w.disableStarCount.clickStar i = (w.clickStar i).disableStarCount ∧
    w.disableStarCount.enableStarCount = w ∧
    w.disableStarCount.enableStarCount.clickStar i = w.clickStar i := by
  obtain ⟨s, c, d⟩ := w
  replace h : d = false := h
  subst h
  refine ⟨?_, rfl, rfl⟩
  unfold Widget.disableStarCount Widget.clickStar
  by_cases hi : i < s.length <;> simp [hi]

/-- C1 witness: the amended statement at a concrete enabled widget. -/
theorem c1_witness :
    (Widget.init 2).disabled = false ∧
    ((Widget.init 2).disableStarCount.clickStar 0 =
        ((Widget.init 2).clickStar 0).disableStarCount ∧
      (Widget.init 2).disableStarCount.enableStarCount = Widget.init 2 ∧
      (Widget.init 2).disableStarCount.enableStarCount.clickStar 0 =
        (Widget.init 2).clickStar 0) :=
  ⟨rfl, c1_thm (Widget.init 2) 0 rfl⟩

/-- C2: for every widget and every n within [1, starCount], set(n)
followed by get() returns n. -/
theorem c2_thm (w : Widget) (n : Int) (h1 : 1 ≤ n)
    (h2 : n ≤ (w.stars.length : Int)) : (w.setStarCount n).get = some n := rfl

/-- C2 witness: set(2) then get() on a 3-star widget. -/
theorem c2_witness :
    1 ≤ (2 : Int) ∧ (2 : Int) ≤ ((Widget.init 3).stars.length : Int) ∧
      ((Widget.init 3).setStarCount 2).get = some 2 :=
  ⟨by decide, by decide, c2_thm (Widget.init 3) 2 (by decide) (by decide)⟩

/-- C3: a click event on the star at 0-based index j (1-based position
i = j + 1, the star's index among its siblings at click time) marks the
stars at positions up to j selected, unmarks the rest, and records
j + 1, so get() returns the clicked position. -/
theorem c3_thm (w : Widget) (j : Nat) (h : j < w.stars.length) :
    (w.clickStar j).get = some ((j : Int) + 1) ∧
    ∀ k, (hk : k < (w.clickStar j).stars.length) →
      (w.clickStar j).stars[k] = decide (k ≤ j) := by
  unfold Widget.clickStar Widget.get
  rw [if_pos h]
  refine ⟨rfl, ?_⟩
  intro k hk
  simp only [List.getElem_map, List.getElem_range]

/-- C3 witness: clicking star 2 of a 3-star widget that had all three
stars selected leaves stars 1..2 selected, star 3 unselected, get() 2. -/
theorem c3_witness :
    1 < ((Widget.init 3).setStarCount 3).stars.length ∧
    ((((Widget.init 3).setStarCount 3).clickStar 1).get = some 2 ∧
      ∀ k, (hk : k < (((Widget.init 3).setStarCount 3).clickStar 1).stars.length) →
        (((Widget.init 3).setStarCount 3).clickStar 1).stars[k] = decide (k ≤ 1)) :=
  ⟨by decide, c3_thm ((Widget.init 3).setStarCount 3) 1 (by decide)⟩

/-- C4: whatever the prior state (hence after any sequence of set calls),
reset() removes the selected mark from every star and a subsequent get()
returns the unset value. -/
theorem c4_thm (w : Widget) :
    w.resetStarCount.get = none ∧
      w.resetStarCount.stars = List.replicate w.stars.length false :=
  ⟨rfl, map_eq_replicate_false w.stars (fun _ => false) (fun _ => rfl)⟩

/-- C5 counterexample: create on a container that already holds one child
keeps that child: afterwards the children are the old content followed by
the star list — not the stars alone.  The source appends; it does not
replace. -/
theorem c5_cex :
    (starRatingCreate { pre := [7], widget := none } (some 5)).children =
        [Node.content 7, Node.starList (List.replicate 5 false)] ∧
      (starRatingCreate { pre := [7], widget := none } (some 5)).children ≠
        [Node.starList (List.replicate 5 false)] :=
  ⟨rfl, by decide⟩

/-- C5 (amended): create(container, options) appends the starCount newly
built, unselected stars after whatever the container already holds:
pre-existing content is kept in place, not replaced. -/
theorem c5_thm (p : List Nat) (n : Nat) :
    (starRatingCreate { pre := p, widget := none } (some n)).children =
      p.map Node.content ++ [Node.starList (List.replicate n false)] := rfl

/-- C6 counterexample: the command get, issued as a getter (no extra
arguments) on a container on which create() has not run, is not a silent
no-op: the dispatch reads a property of the undefined instance and a
TypeError is thrown. -/
theorem c6_cex :
    (starRatingCmd { pre := [], widget := none } strGet []).threw = true := by
  decide

/-- C6 (amended): before create() has run, the commands set, reset,
disable, enable and destroy are silent no-ops (element unchanged, nothing
thrown, no method invoked), but get with no arguments takes the getter
branch and raises a TypeError instead of being a no-op. -/
theorem c6_thm (p : List Nat) (args : List Int) :
    starRatingCmd { pre := p, widget := none } strSet args =
        noDispatch { pre := p, widget := none } ∧
    starRatingCmd { pre := p, widget := none } strReset args =
        noDispatch { pre := p, widget := none } ∧
    starRatingCmd { pre := p, widget := none } strDisable args =
        noDispatch { pre := p, widget := none } ∧
    starRatingCmd { pre := p, widget := none } strEnable args =
        noDispatch { pre := p, widget := none } ∧
    starRatingCmd { pre := p, widget := none } strDestroy args =
        noDispatch { pre := p, widget := none } ∧
    (starRatingCmd { pre := p, widget := none } strGet []).threw = true := by
  refine ⟨cmd_none_noop p args strSet (by decide) (by decide),
    cmd_none_noop p args strReset (by decide) (by decide),
    cmd_none_noop p args strDisable (by decide) (by decide),
    cmd_none_noop p args strEnable (by decide) (by decide),
    cmd_none_noop p args strDestroy (by decide) (by decide), ?_⟩
  unfold starRatingCmd
  rw [if_neg (by decide), if_pos (by decide)]

/-- C7 counterexample: the reachable sequence create 2 then set 3 yields
an instance whose recorded value 3 lies outside [1, 2] while no star is
marked, so the claimed invariant fails on a reachable state. -/
theorem c7_cex :
    ¬ Elem.inv (Elem.run { pre := [], widget := none } [Op.create 2, Op.set 3]) := by
  intro h
  have hw := h { stars := [false, false], count := some 3, disabled := false } rfl
  exact absurd hw (by decide)

/-- C7 (amended): starting from any uninitialized container, every
sequence of create, set, reset, click, disable and enable operations in
which each set issued on an initialized widget passes a value within
[1, starCount] leads to a state where the selected marks are exactly the
prefix 1..selected (empty when unset) and the recorded value is unset or
within [1, starCount].  (An out-of-range set breaks the invariant by
recording the out-of-range value, as the counterexample shows.) -/
theorem c7_thm (p : List Nat) (ops : List Op)
    (hok : opsOk { pre := p, widget := none } ops = true) :
    Elem.inv (Elem.run { pre := p, widget := none } ops) :=
  inv_run ops _ (fun _ hw => Option.noConfusion hw) hok

/-- C7 witness: the invariant along a concrete in-range sequence. -/
theorem c7_witness :
    opsOk { pre := [], widget := none }
        [Op.create 3, Op.set 2, Op.click 0, Op.disable, Op.reset, Op.enable] = true ∧
      Elem.inv (Elem.run { pre := [], widget := none }
        [Op.create 3, Op.set 2, Op.click 0, Op.disable, Op.reset, Op.enable]) :=
  ⟨by decide, c7_thm []
    [Op.create 3, Op.set 2, Op.click 0, Op.disable, Op.reset, Op.enable] (by decide)⟩

/-- C8: a second create on an already-initialized container is a no-op:
the element, its instance state and its rendered stars are unchanged,
whatever options are passed. -/
theorem c8_thm (p : List Nat) (w : Widget) (opts : Option Nat) :
    starRatingCreate { pre := p, widget := some w } opts =
      { pre := p, widget := some w } := rfl

/-- C9: a command string beginning with an underscore never reaches an
instance method: the dispatch guard rejects it before either branch, so
no method is invoked, nothing is thrown and the element is untouched. -/
theorem c9_thm (e : Elem) (cmd : String) (args : List Int)
    (h : String.front cmd = '_') :
    starRatingCmd e cmd args = noDispatch e := by
  unfold starRatingCmd
  rw [if_pos (Or.inl h)]

/-- C9 witness: dispatching the private name _build on an initialized
element does nothing. -/
theorem c9_witness :
    String.front strBuild = '_' ∧
      starRatingCmd { pre := [], widget := some (Widget.init 5) } strBuild [] =
        noDispatch { pre := [], widget := some (Widget.init 5) } :=
  ⟨by decide, c9_thm { pre := [], widget := some (Widget.init 5) } strBuild [] (by decide)⟩

/-- C10: set(n) with n outside [1, starCount] leaves every star's
selected mark exactly as it was, yet still records n, so a subsequent
get() returns the out-of-range n. -/
theorem c10_thm (w : Widget) (n : Int)
    (h : n < 1 ∨ (w.stars.length : Int) < n) :
    (w.setStarCount n).stars = w.stars ∧ (w.setStarCount n).get = some n := by
  unfold Widget.setStarCount Widget.get
  rw [if_neg (by omega)]
  exact ⟨rfl, rfl⟩

/-- C10 witness: set(5) on a 3-star widget showing rating 1 keeps the
single selected mark but makes get() return 5. -/
theorem c10_witness :
    ((5 : Int) < 1 ∨ ((((Widget.init 3).setStarCount 1).stars.length : Int) < 5)) ∧
      ((((Widget.init 3).setStarCount 1).setStarCount 5).stars =
          ((Widget.init 3).setStarCount 1).stars ∧
        (((Widget.init 3).setStarCount 1).setStarCount 5).get = some 5) :=
  ⟨by decide, c10_thm ((Widget.init 3).setStarCount 1) 5 (by decide)⟩

end StarRating
